import Mathlib

/-!
Shallow embedding of the preflight check tool of the tvk-plugins repository
(`tools/preflight/preflight.go`, `cmd/preflight/cmd/run.go`).

External effects (cluster API calls, binary lookups, the random source,
pod creation/deletion, remote exec) are modelled as explicit oracle inputs:
each Go call that can fail becomes an `Except String` value (or a function
producing one) passed into the embedded definition, and the embedded
function consumes the oracles in exactly the order and under exactly the
conditions the Go code performs the corresponding calls.
-/

deriving instance DecidableEq for Except

namespace Preflight

/-- Result of a `Get`-style cluster lookup: the object, a NotFound error
(`k8serrors.IsNotFound err = true`), or some other error. -/
inductive LookupResult (α : Type) where
  | found (a : α)
  | notFound
  | otherError (msg : String)
deriving DecidableEq, Repr

/-- An unstructured VolumeSnapshotClass object as the Go code reads it:
`vssc.Object["driver"]` and the top-level
`"snapshot.storage.kubernetes.io/is-default-class"` key, plus its name.
Absent keys are `none` (a `nil` interface value in Go, equal to no string). -/
structure VSSClass where
  name : String
  driver : Option String
  isDefaultClass : Option String
deriving DecidableEq, Repr

/-- A StorageClass object as read by the Go code: name and provisioner. -/
structure StorageClassObj where
  name : String
  provisioner : String
deriving DecidableEq, Repr

/-! ## checkSnapshotclassForProvisioner (preflight.go:378-419)

The Go loop over `vsscList.Items`:
```
sscName := ""
for _, vssc := range vsscList.Items {
    if vssc.Object["driver"] == provisioner {
        if vssc.Object["snapshot.storage.kubernetes.io/is-default-class"] == "true" {
            return vssc.GetName(), nil
        }
        sscName = vssc.GetName()
    }
}
if sscName == "" { return "", fmt.Errorf("no matching ...") }
return sscName, nil
```
`snapClassSearch` is that loop with the accumulator `sscName` made explicit. -/
def snapClassSearch (provisioner : String) : List VSSClass → String → Except String String
  | [], sscName =>
    if sscName = "" then
      .error ("no matching volume snapshot class having driver " ++
        "same as provisioner - " ++ provisioner ++ " found on cluster")
    else .ok sscName
  | vssc :: rest, sscName =>
    if vssc.driver = some provisioner then
      if vssc.isDefaultClass = some "true" then .ok vssc.name
      else snapClassSearch provisioner rest vssc.name
    else snapClassSearch provisioner rest sscName

/-- Embedding of `checkSnapshotclassForProvisioner` (preflight.go:378-419): fetches the
server's preferred version for the snapshot group, lists the
VolumeSnapshotClass objects at that version, errors on an empty list, and
otherwise runs the search loop. `prefVersionRes` is the outcome of
`GetServerPreferredVersionForGroup`, `listRes` the outcome of
`runtimeClient.List`. -/
def checkSnapshotclassForProvisioner (prefVersionRes : Except String String)
    (listRes : Except String (List VSSClass)) (provisioner : String) :
    Except String String :=
  match prefVersionRes with
  | .error e => .error e
  | .ok prefVersion =>
    match listRes with
    | .error e => .error e
    | .ok items =>
      if items.isEmpty then
        .error ("no volume snapshot class for APIVersion - snapshot.storage.k8s.io/" ++
          prefVersion ++ " found on cluster")
      else snapClassSearch provisioner items ""

/-! ## checkKubernetesRBAC (preflight.go:308-336) -/

/-- Embedding of `schema.ParseGroupVersion` from apimachinery, as called by the RBAC
check: empty or "/" parses to the empty group/version; zero slashes means
a bare version; one slash splits into group/version; more than one slash
is an error. -/
def ParseGroupVersion (gv : String) : Except String (String × String) :=
  if gv.length = 0 ∨ gv = "/" then .ok ("", "")
  else
    match (gv.toList.filter (· = '/')).length with
    | 0 => .ok ("", gv)
    | 1 =>
      let i := (gv.toList.findIdx (· = '/'))
      .ok (⟨gv.toList.take i⟩, ⟨gv.toList.drop (i + 1)⟩)
    | _ => .error ("unexpected GroupVersion string: " ++ gv)

/-- Outcome of `discClient.ServerGroups()` as the RBAC check distinguishes
it: success with a group-version list, a group-discovery-failed error that
still carries a (possibly partial) list, or any other error. -/
inductive ServerGroupsResult where
  | ok (apiVersions : List String)
  | groupDiscoveryFailed (apiVersions : List String) (msg : String)
  | otherError (msg : String)
deriving DecidableEq, Repr

/-- The loop body of `checkKubernetesRBAC`: iterate the group-version
strings; a parse error returns nil (success) from the whole check; a
group/version match succeeds; exhausting the list without a match errors. -/
def rbacScan (apiGroup apiVersion : String) : List String → Except String Unit
  | [] => .error "not enabled kubernetes RBAC"
  | apiver :: rest =>
    match ParseGroupVersion apiver with
    | .error _ => .ok ()
    | .ok (g, v) =>
      if g = apiGroup ∧ v = apiVersion then .ok ()
      else rbacScan apiGroup apiVersion rest

/-- Embedding of `checkKubernetesRBAC` (preflight.go:308-336): on a non-discovery
server-groups error the check fails; a group-discovery-failed error is
only warned about and the (partial) list is still scanned. -/
def checkKubernetesRBAC (apiGroup apiVersion : String)
    (serverGroups : ServerGroupsResult) : Except String Unit :=
  match serverGroups with
  | .otherError e => .error e
  | .ok apiVersions => rbacScan apiGroup apiVersion apiVersions
  | .groupDiscoveryFailed apiVersions _ => rbacScan apiGroup apiVersion apiVersions

/-! ## checkStorageSnapshotClass (preflight.go:340-375) -/

/-- The pieces of `RunOptions` (preflight.go:26-36) the embedded checks
read. -/
structure RunConfig where
  storageClass : String
  snapshotClass : String
  localRegistry : String
  imagePullSecret : String
  performCleanupOnFail : Bool
deriving DecidableEq, Repr

/-- Oracle inputs of `checkStorageSnapshotClass`: the StorageClass `Get`,
the explicit snapshot-class fetch, and the inputs of
`checkSnapshotclassForProvisioner`. `snapClassFetch` stands for
`clusterHasVolumeSnapshotClass` — modelled from the spec: that helper's
source is outside the provided files; per the spec the configured class is
simply fetched, yielding the object or an error. -/
structure StorageSnapEnv where
  scLookup : LookupResult StorageClassObj
  snapClassFetch : Except String VSSClass
  prefVersionRes : Except String String
  listRes : Except String (List VSSClass)

/-- Embedding of `checkStorageSnapshotClass` (preflight.go:340-375). On success it
returns the name recorded into the global `storageVolSnapClass`. A
NotFound on the StorageClass get produces the dedicated message; with an
explicitly configured snapshot class the fetched object's `driver` must
equal the StorageClass's provisioner. -/
def checkStorageSnapshotClass (cfg : RunConfig) (env : StorageSnapEnv) :
    Except String String :=
  match env.scLookup with
  | .notFound => .error ("not found storageclass - " ++ cfg.storageClass ++ " on cluster")
  | .otherError e => .error e
  | .found sc =>
    if cfg.snapshotClass = "" then
      checkSnapshotclassForProvisioner env.prefVersionRes env.listRes sc.provisioner
    else
      match env.snapClassFetch with
      | .error e => .error e
      | .ok vssc =>
        if vssc.driver = some sc.provisioner then .ok cfg.snapshotClass
        else
          .error ("volume snapshot class - " ++ cfg.snapshotClass ++
            " driver does not match with given StorageClass's provisioner=" ++
            sc.provisioner)

/-! ## checkCSI (preflight.go:422-450) -/

/-- Modelled from the spec: the fixed set of expected CSI
custom-resource-definition names (`CsiApis`); its definition lives outside
the provided sources, the spec fixes only that it is a fixed set of three
CRD names checked at the API-extensions group's preferred version. -/
def CsiApis : List String :=
  ["volumesnapshotclasses.snapshot.storage.k8s.io",
   "volumesnapshotcontents.snapshot.storage.k8s.io",
   "volumesnapshots.snapshot.storage.k8s.io"]

/-- The loop of `checkCSI` over the expected API names: counts the names
found, collects (in order) the names logged as missing, and aborts with
the raw error on any lookup failure that is not NotFound. Names after an
aborting lookup are neither counted nor logged. -/
def csiScan (lookup : String → LookupResult Unit) :
    List String → Except String Nat × List String
  | [] => (.ok 0, [])
  | api :: rest =>
    match lookup api with
    | .otherError e => (.error e, [])
    | .notFound =>
      let (r, missing) := csiScan lookup rest
      (r, api :: missing)
    | .found _ =>
      let (r, missing) := csiScan lookup rest
      (r.map (· + 1), missing)

/-- Result of `checkCSI` together with the names it logged as missing. -/
structure CSIOutcome where
  result : Except String Unit
  missingLogged : List String
deriving DecidableEq, Repr

/-- Embedding of `checkCSI` (preflight.go:422-450): fetch the preferred version of the
API-extensions group, look every `CsiApis` name up as a CRD, and fail
unless `apiFoundCnt = CsiApis.length`. -/
def checkCSI (prefVersionRes : Except String String)
    (lookup : String → LookupResult Unit) : CSIOutcome :=
  match prefVersionRes with
  | .error e => ⟨.error e, []⟩
  | .ok _ =>
    let (r, missing) := csiScan lookup CsiApis
    match r with
    | .error e => ⟨.error e, missing⟩
    | .ok cnt =>
      if cnt ≠ CsiApis.length then
        ⟨.error "some CSI APIs not found in cluster. Check logs for details", missing⟩
      else ⟨.ok (), missing⟩

/-! ## checkHelmVersion (preflight.go:233-281) -/

/-- Oracle inputs of the helm checks: whether `internal.CheckIsOpenshift`
reports the OpenShift API group present, the result of looking the helm
binary up in `$PATH`, and the result of `GetHelmVersion` (running the helm
binary to print its version). -/
structure HelmEnv where
  isOpenshift : Bool
  helmLookPath : Except String String
  getHelmVersion : Except String String

/-- Embedding of `version.NewVersion` restricted to the dotted-numeric shape the helm
check feeds it: every `.`-separated segment must be a decimal number. -/
def NewVersion (s : String) : Except String (List Nat) :=
  let segs := (s.splitOn ".").map String.toNat?
  if segs.all Option.isSome then .ok (segs.map (fun o => o.getD 0))
  else .error ("Malformed version: " ++ s)

/-- Segment-wise pairing of two version-segment lists, padding the shorter
one with zeros, as go-version's comparison does. -/
def padZip : List Nat → List Nat → List (Nat × Nat)
  | [], [] => []
  | [], y :: ys => (0, y) :: padZip [] ys
  | x :: xs, [] => (x, 0) :: padZip xs []
  | x :: xs, y :: ys => (x, y) :: padZip xs ys

/-- Embedding of `v2.LessThan(v1)`: lexicographic comparison of zero-padded segments. -/
def versionLessThan (a b : List Nat) : Bool :=
  (padZip a b).foldr (fun (p : Nat × Nat) acc =>
    if p.1 < p.2 then true else if p.2 < p.1 then false else acc) false

/-- Embedding of `validateHelmBinary` (preflight.go:268-281): on an OpenShift cluster
it returns nil immediately; otherwise the helm binary must be found in
`$PATH`. -/
def validateHelmBinary (env : HelmEnv) : Except String Unit :=
  if env.isOpenshift then .ok ()
  else
    match env.helmLookPath with
    | .error e => .error ("error finding 'helm' binary in $PATH of the system :: " ++ e)
    | .ok _ => .ok ()

/-- Embedding of `validateHelmVersion` (preflight.go:246-266): calls `GetHelmVersion`
again, parses the minimum and current versions, and fails when the current
version is below the minimum. -/
def validateHelmVersion (minHelmVersion : String) (env : HelmEnv)
    (curVersion : String) : Except String Unit :=
  match env.getHelmVersion with
  | .error e => .error e
  | .ok _ =>
    match NewVersion minHelmVersion with
    | .error e => .error e
    | .ok v1 =>
      match NewVersion curVersion with
      | .error e => .error e
      | .ok v2 =>
        if versionLessThan v2 v1 then
          .error ("helm does not meet minimum version requirement.\nUpgrade helm to " ++
            "minimum version - " ++ minHelmVersion)
        else .ok ()

/-- Embedding of `checkHelmVersion` (preflight.go:233-244): validate the binary, then
fetch the current helm version via `GetHelmVersion`, then validate it.
Note the Go code reaches `GetHelmVersion` even when `validateHelmBinary`
returned nil because the cluster is OpenShift. `minHelmVersion` is the
`MinHelmVersion` constant, whose definition is outside the provided
sources. -/
def checkHelmVersion (minHelmVersion : String) (env : HelmEnv) : Except String Unit :=
  match validateHelmBinary env with
  | .error e => .error e
  | .ok _ =>
    match env.getHelmVersion with
    | .error e => .error e
    | .ok curVersion => validateHelmVersion minHelmVersion env curVersion

/-! ## checkDNSResolution (preflight.go:453-505) -/

/-- Oracle inputs of `checkDNSResolution`, one per cluster interaction in
the order the Go code performs them: pod creation, the pod-ready wait, the
re-`Get` of the pod, the in-pod exec, and the pod deletion. -/
structure DNSEnv where
  createPodRes : Except String Unit
  waitReadyRes : Except String Unit
  getPodRes : Except String Unit
  execRes : Except String Unit
  deleteRes : Except String Unit

/-- Result of `checkDNSResolution` paired with whether the pod deletion
call was issued. -/
structure DNSOutcome where
  result : Except String Unit
  deleteAttempted : Bool
deriving DecidableEq, Repr

/-- Embedding of `checkDNSResolution` (preflight.go:453-505): create the DNS test pod,
wait for Ready, re-fetch it, exec the DNS lookup; only on full success is
the pod deleted, and a deletion failure is merely warned about — the check
still returns nil. -/
def checkDNSResolution (execCommand : List String) (env : DNSEnv) : DNSOutcome :=
  match env.createPodRes with
  | .error e => ⟨.error e, false⟩
  | .ok _ =>
  match env.waitReadyRes with
  | .error e => ⟨.error e, false⟩
  | .ok _ =>
  match env.getPodRes with
  | .error e => ⟨.error e, false⟩
  | .ok _ =>
  match env.execRes with
  | .error _ =>
    ⟨.error ("not able to resolve DNS '" ++ execCommand.getD 1 "" ++
      "' service inside pods"), false⟩
  | .ok _ => ⟨.ok (), true⟩

/-! ## CreateResourceNameSuffix (preflight.go:45-58) -/

/-- Modelled from the spec: `letterBytes`, the fixed alphanumeric alphabet
(letters/digits) resource-name suffix characters are drawn from; its
definition is outside the provided sources. -/
def letterBytes : String := "abcdefghijklmnopqrstuvwxyz0123456789"

/-- The suffix loop: character `i` of the suffix is `letterBytes[idx]`
where `idx` is the value of the `i`-th call of `rand.Int(rand.Reader,
len(letterBytes))`; the first failing call aborts with its error.
`rand.Int`'s contract keeps every returned value below the range, so the
out-of-range default is never reached under that hypothesis. -/
def createSuffixAux (randInt : Nat → Except String Nat) :
    Nat → Nat → Except String (List Char)
  | _, 0 => .ok []
  | i, n + 1 =>
    match randInt i with
    | .error e => .error e
    | .ok idx =>
      match createSuffixAux randInt (i + 1) n with
      | .error e => .error e
      | .ok rest => .ok (letterBytes.toList.getD idx 'a' :: rest)

/-- Embedding of `CreateResourceNameSuffix` (preflight.go:45-58): builds the 6-byte
suffix from 6 independent draws of the cryptographically secure source,
modelled as the oracle `randInt`. -/
def CreateResourceNameSuffix (randInt : Nat → Except String Nat) :
    Except String String :=
  (createSuffixAux randInt 0 6).map (fun cs => ⟨cs⟩)

/-! ## PerformPreflightChecks (preflight.go:78-209) -/

/-- The preflight checks, in the order `PerformPreflightChecks` runs
them. -/
inductive CheckName where
  | kubectl | clusterAccess | helmVersion | k8sVersion | rbac
  | storageSnapshotClass | csi | dns | volumeSnapshot
deriving DecidableEq, Repr

/-- Oracle inputs of `PerformPreflightChecks`: the UID generation outcome
and one outcome per check, plus the cleanup outcome and the
cleanup-on-failure flag. -/
structure PreflightEnv where
  uidGen : Except String String
  kubectlRes : Except String Unit
  clusterAccessRes : Except String Unit
  helmVersionRes : Except String Unit
  k8sVersionRes : Except String Unit
  rbacRes : Except String Unit
  storageSnapshotRes : Except String Unit
  csiRes : Except String Unit
  dnsRes : Except String Unit
  volumeSnapshotRes : Except String Unit
  cleanupRes : Except String Unit
  performCleanupOnFail : Bool

/-- Observable outcome of one `PerformPreflightChecks` run: which checks
were executed (in order), whether `CleanupPreflightResources` was invoked,
and the returned error. -/
structure RunOutcome where
  executed : List CheckName
  cleanupCalled : Bool
  result : Except String Unit
deriving DecidableEq, Repr

/-- The first eight checks, which `PerformPreflightChecks` always runs
(in this order) once the UID was generated. -/
def mainChecks : List CheckName :=
  [.kubectl, .clusterAccess, .helmVersion, .k8sVersion, .rbac,
   .storageSnapshotClass, .csi, .dns]

/-- Embedding of `PerformPreflightChecks` (preflight.go:78-209): generate the UID
(an error there returns immediately), run the eight unconditional checks
accumulating `preflightStatus`, run the volume-snapshot check only when
the storage/snapshot-class check succeeded, then invoke cleanup when the
status is true or cleanup-on-failure is set (a cleanup error is only
logged), and finally return an error exactly when the status is false. -/
def PerformPreflightChecks (env : PreflightEnv) : RunOutcome :=
  match env.uidGen with
  | .error e => { executed := [], cleanupCalled := false, result := .error e }
  | .ok _ =>
    let status8 := env.kubectlRes.isOk && env.clusterAccessRes.isOk &&
      env.helmVersionRes.isOk && env.k8sVersionRes.isOk && env.rbacRes.isOk &&
      env.storageSnapshotRes.isOk && env.csiRes.isOk && env.dnsRes.isOk
    let storageSnapshotSuccess := env.storageSnapshotRes.isOk
    let (executed, preflightStatus) :=
      if storageSnapshotSuccess then
        (mainChecks ++ [CheckName.volumeSnapshot], status8 && env.volumeSnapshotRes.isOk)
      else (mainChecks, status8)
    let cleanupCalled := preflightStatus || env.performCleanupOnFail
    { executed := executed
      cleanupCalled := cleanupCalled
      result :=
        if !preflightStatus then
          .error "some preflight checks failed. Check logs for more details"
        else .ok () }

/-! ## runCmd.RunE (cmd/preflight/cmd/run.go:46-82) -/

/-- Oracle inputs of the `run` command handler preceding the two
configuration validations: input management, logger setup, kube-client
initialization, log-file opening, and resource-requirements validation. -/
structure RunEEnv where
  cfg : RunConfig
  manageInputsRes : Except String Unit
  setupLoggerRes : Except String Unit
  initKubeEnvRes : Except String Unit
  openLogFileRes : Except String Unit
  validateResourceReqRes : Except String Unit

/-- What the `run` command handler does before any check: terminate
fatally with a message, or reach the `PerformPreflightChecks` call. -/
inductive RunEResult where
  | fatal (msg : String)
  | checksInvoked
deriving DecidableEq, Repr

/-- Embedding of `runCmd.RunE` (run.go:46-82) up to the `PerformPreflightChecks` call:
every `log.Fatal`/`logger.Fatalf` terminates the process, so a failure of
any earlier step or of the two configuration validations means the checks
are never invoked and no ephemeral resource is created. -/
def runCmdRunE (env : RunEEnv) : RunEResult :=
  match env.manageInputsRes with
  | .error e => .fatal e
  | .ok _ =>
  match env.setupLoggerRes with
  | .error e => .fatal ("Failed to setup a logger :: " ++ e)
  | .ok _ =>
  match env.initKubeEnvRes with
  | .error e => .fatal ("Error initializing kubernetes clients :: " ++ e)
  | .ok _ =>
  match env.openLogFileRes with
  | .error e => .fatal ("Failed to open preflight log file :: " ++ e)
  | .ok _ =>
  match env.validateResourceReqRes with
  | .error e => .fatal e
  | .ok _ =>
  if env.cfg.storageClass = "" then
    .fatal "storage-class is required, cannot be empty"
  else if env.cfg.imagePullSecret ≠ "" ∧ env.cfg.localRegistry = "" then
    .fatal ("Cannot give image pull secret if local registry is not provided.\n" ++
      "Use --local-registry flag to provide local registry")
  else .checksInvoked

/-! ## Spec-side helper notions used to state the theorems -/

/-- Spec-side helper: the first class in list order flagged as the cluster
default (`is-default-class = "true"`) whose driver equals the
provisioner. -/
def firstDefaultMatch (pv : String) : List VSSClass → Option VSSClass
  | [] => none
  | c :: rest =>
    if c.driver = some pv ∧ c.isDefaultClass = some "true" then some c
    else firstDefaultMatch pv rest

/-- Spec-side helper: the last class in list order whose driver equals the
provisioner. -/
def lastDriverMatch (pv : String) : List VSSClass → Option VSSClass
  | [] => none
  | c :: rest =>
    match lastDriverMatch pv rest with
    | some d => some d
    | none => if c.driver = some pv then some c else none

/-- A lookup outcome that is either found or NotFound (no other error). -/
def noOtherError {α : Type} : LookupResult α → Bool
  | .otherError _ => false
  | _ => true

/-- All checks that `PerformPreflightChecks` executed passed: the eight
unconditional checks, and the volume-snapshot check whenever the
storage/snapshot-class check succeeded (when that check failed the
volume-snapshot check is skipped and excluded). -/
def allChecksPassed (env : PreflightEnv) : Bool :=
  env.kubectlRes.isOk && env.clusterAccessRes.isOk && env.helmVersionRes.isOk &&
  env.k8sVersionRes.isOk && env.rbacRes.isOk && env.storageSnapshotRes.isOk &&
  env.csiRes.isOk && env.dnsRes.isOk &&
  (!env.storageSnapshotRes.isOk || env.volumeSnapshotRes.isOk)

/-- Whether the run-command handler terminated fatally (as opposed to
reaching the `PerformPreflightChecks` call). -/
def RunEResult.isFatal : RunEResult → Bool
  | .fatal _ => true
  | .checksInvoked => false

/-- Spec-side helper: whether a group-version string parses to exactly the
given group/version pair. -/
def gvMatches (apiGroup apiVersion s : String) : Bool :=
  match ParseGroupVersion s with
  | .ok (g, v) => g = apiGroup && v = apiVersion
  | .error _ => false

/-- A concrete oracle environment in which UID generation and every check
and the cleanup succeed, with cleanup-on-failure unset. -/
def sampleEnvAllOk : PreflightEnv :=
  ⟨.ok "abc123", .ok (), .ok (), .ok (), .ok (), .ok (), .ok (), .ok (), .ok (),
   .ok (), .ok (), false⟩

/-- A concrete oracle environment in which the storage/snapshot-class
check fails, every other oracle succeeds, and cleanup-on-failure is
set. -/
def sampleEnvSnapFail : PreflightEnv :=
  ⟨.ok "abc123", .ok (), .ok (), .ok (), .ok (), .ok (),
   .error "no matching volume snapshot class", .ok (), .ok (), .ok (), .ok (), true⟩

/-- A concrete CSI lookup oracle under which exactly one of the expected
CRDs is absent. -/
def sampleCSILookup : String → LookupResult Unit := fun api =>
  if api = "volumesnapshots.snapshot.storage.k8s.io" then .notFound else .found ()

end Preflight

namespace Preflight

/-! ## Helper lemmas -/

/-- The snapshot-class loop with accumulator `acc` computes: the first
default-flagged driver match if any, else the last driver match if any,
else the accumulator-based fallback. Requires every class name non-empty
(Kubernetes object names are non-empty), because an empty name is the
loop's "no match yet" sentinel. -/
theorem snapClassSearch_eq (pv : String) (items : List VSSClass) (acc : String)
    (hnames : ∀ c ∈ items, c.name ≠ "") :
    snapClassSearch pv items acc =
      match firstDefaultMatch pv items with
      | some c => .ok c.name
      | none =>
        match lastDriverMatch pv items with
        | some c => .ok c.name
        | none =>
          if acc = "" then
            .error ("no matching volume snapshot class having driver " ++
              "same as provisioner - " ++ pv ++ " found on cluster")
          else .ok acc := by
  induction items generalizing acc with
  | nil => simp [snapClassSearch, firstDefaultMatch, lastDriverMatch]
  | cons c rest ih =>
    have hc : c.name ≠ "" := hnames c (List.mem_cons_self c rest)
    have hrest : ∀ d ∈ rest, d.name ≠ "" := fun d hd => hnames d (List.mem_cons_of_mem c hd)
    by_cases hdrv : c.driver = some pv
    · by_cases hdef : c.isDefaultClass = some "true"
      · simp [snapClassSearch, firstDefaultMatch, hdrv, hdef]
      · rw [show snapClassSearch pv (c :: rest) acc = snapClassSearch pv rest c.name by
          simp [snapClassSearch, hdrv, hdef]]
        rw [ih c.name hrest]
        simp only [firstDefaultMatch, hdrv, hdef, lastDriverMatch]
        cases hfd : firstDefaultMatch pv rest with
        | some d => simp
        | none =>
          cases hlm : lastDriverMatch pv rest with
          | some d => simp
          | none => simp [hdrv, hc]
    · rw [show snapClassSearch pv (c :: rest) acc = snapClassSearch pv rest acc by
        simp [snapClassSearch, hdrv]]
      rw [ih acc hrest]
      simp only [firstDefaultMatch, lastDriverMatch, hdrv]
      cases hfd : firstDefaultMatch pv rest with
      | some d => simp
      | none =>
        cases hlm : lastDriverMatch pv rest with
        | some d => simp
        | none => simp [hdrv]

/-! ## Claim theorems -/

/-- C1: the claim says `checkHelmVersion` auto-passes on OpenShift
clusters without requiring a helm binary. The code auto-passes only
`validateHelmBinary`; `checkHelmVersion` then still calls
`GetHelmVersion`, so on an OpenShift cluster whose host has no helm
binary the check fails — contradicting the claim, the spec, and the
code's own "Helm not needed for OCP clusters" message. Evaluated here at
that failing input (OpenShift = true, helm binary absent). -/
theorem checkHelmVersion_openshift_requires_helm_binary :
    validateHelmBinary
      ⟨true, .error "helm not in PATH",
        .error "exec: helm: executable file not found in PATH"⟩ = .ok () ∧
    checkHelmVersion "3.0.0"
      ⟨true, .error "helm not in PATH",
        .error "exec: helm: executable file not found in PATH"⟩ =
      .error "exec: helm: executable file not found in PATH" := by
  constructor
  · rfl
  · rfl

/-- C2 counterexample: with two driver-matching, non-default snapshot
classes `a` then `b`, the code returns `b` — the last match — while the
claim's fallback is the first match, `a`. -/
theorem checkSnapshotclassForProvisioner_last_not_first :
    checkSnapshotclassForProvisioner (.ok "v1")
      (.ok [⟨"a", some "p", none⟩, ⟨"b", some "p", none⟩]) "p" = .ok "b" ∧
    ([⟨"a", some "p", none⟩, ⟨"b", some "p", none⟩] : List VSSClass).find?
      (fun c => c.driver == some "p") = some ⟨"a", some "p", none⟩ ∧
    ("b" : String) ≠ "a" := by
  refine ⟨rfl, rfl, by decide⟩

/-- C2 (amended): for every provisioner and non-empty class list (with
Kubernetes' non-empty object names), the search returns the name of the
first class flagged as cluster default whose driver equals the
provisioner; otherwise the name of the **last** class in list order whose
driver equals the provisioner; and errors exactly when no class's driver
equals the provisioner. -/
theorem checkSnapshotclassForProvisioner_amended (pv pref : String)
    (items : List VSSClass) (hne : items ≠ [])
    (hnames : ∀ c ∈ items, c.name ≠ "") :
    checkSnapshotclassForProvisioner (.ok pref) (.ok items) pv =
      match firstDefaultMatch pv items with
      | some c => .ok c.name
      | none =>
        match lastDriverMatch pv items with
        | some c => .ok c.name
        | none =>
          .error ("no matching volume snapshot class having driver " ++
            "same as provisioner - " ++ pv ++ " found on cluster") := by
  have h := snapClassSearch_eq pv items "" hnames
  simp only [checkSnapshotclassForProvisioner]
  rw [if_neg (by simp [List.isEmpty_iff, hne])]
  rw [h]
  cases firstDefaultMatch pv items with
  | some c => rfl
  | none =>
    cases lastDriverMatch pv items with
    | some c => rfl
    | none => rfl

/-- C2 witness: the amended theorem applied at a concrete two-class list
(both drivers match, the second is flagged default) evaluates to the
default class's name. -/
theorem checkSnapshotclassForProvisioner_amended_witness :
    checkSnapshotclassForProvisioner (.ok "v1")
      (.ok [⟨"x", some "q", none⟩, ⟨"y", some "q", some "true"⟩]) "q" = .ok "y" := by
  have h := checkSnapshotclassForProvisioner_amended "q" "v1"
    [⟨"x", some "q", none⟩, ⟨"y", some "q", some "true"⟩] (by decide)
    (by decide)
  rw [h]
  rfl

/-- C10: while scanning the server's group-version strings, a string that
fails `ParseGroupVersion` before any RBAC match makes
`checkKubernetesRBAC` return nil (success), whatever comes after it — in
particular even when the RBAC group/version is absent from the list. -/
theorem checkKubernetesRBAC_parse_error_ok (apiGroup apiVersion bad : String)
    (pre post : List String)
    (hbad : (ParseGroupVersion bad).isOk = false)
    (hpre : ∀ s ∈ pre, gvMatches apiGroup apiVersion s = false) :
    checkKubernetesRBAC apiGroup apiVersion (.ok (pre ++ bad :: post)) = .ok () := by
  show rbacScan apiGroup apiVersion (pre ++ bad :: post) = .ok ()
  induction pre with
  | nil =>
    simp only [List.nil_append, rbacScan]
    cases hp : ParseGroupVersion bad with
    | error e => rfl
    | ok gv => rw [hp] at hbad; simp [Except.isOk, Except.toBool] at hbad
  | cons s rest ih =>
    have hrest : ∀ t ∈ rest, gvMatches apiGroup apiVersion t = false :=
      fun t ht => hpre t (List.mem_cons_of_mem s ht)
    simp only [List.cons_append, rbacScan]
    cases hp : ParseGroupVersion s with
    | error e => rfl
    | ok gv =>
      obtain ⟨g, v⟩ := gv
      show (if g = apiGroup ∧ v = apiVersion then Except.ok ()
        else rbacScan apiGroup apiVersion (rest ++ bad :: post)) = Except.ok ()
      by_cases hcond : g = apiGroup ∧ v = apiVersion
      · exfalso
        have hs := hpre s (List.mem_cons_self s rest)
        simp [gvMatches, hp, hcond.1, hcond.2] at hs
      · rw [if_neg hcond]
        exact ih hrest

/-- C3: whenever UID generation succeeds, the eight unconditional checks
are executed exactly once and in order regardless of any failures; the
volume-snapshot check is appended exactly when the storage/snapshot-class
check succeeded; and when it is skipped the run result is the aggregate
failure error. -/
theorem performPreflightChecks_schedule (env : PreflightEnv) (u : String)
    (huid : env.uidGen = .ok u) :
    (PerformPreflightChecks env).executed =
      (if env.storageSnapshotRes.isOk then mainChecks ++ [CheckName.volumeSnapshot]
       else mainChecks) ∧
    (env.storageSnapshotRes.isOk = false →
      (PerformPreflightChecks env).result =
        .error "some preflight checks failed. Check logs for more details") := by
  cases hss : env.storageSnapshotRes.isOk with
  | true => simp [PerformPreflightChecks, huid, hss]
  | false => simp [PerformPreflightChecks, huid, hss]

/-- C3 witness: in the concrete environment where the
storage/snapshot-class check fails, the eight unconditional checks run
(once each, in order), the volume-snapshot check is skipped, and the run
is marked failed. -/
theorem performPreflightChecks_schedule_witness :
    (PerformPreflightChecks sampleEnvSnapFail).executed =
      (if sampleEnvSnapFail.storageSnapshotRes.isOk then
        mainChecks ++ [CheckName.volumeSnapshot]
       else mainChecks) ∧
    (sampleEnvSnapFail.storageSnapshotRes.isOk = false →
      (PerformPreflightChecks sampleEnvSnapFail).result =
        .error "some preflight checks failed. Check logs for more details") :=
  performPreflightChecks_schedule sampleEnvSnapFail "abc123" rfl

/-- C4: whenever UID generation succeeds, cleanup is invoked exactly when
all executed checks passed or the cleanup-on-failure flag is set; the run
returns success exactly when all executed checks passed; and the result is
unchanged by the cleanup outcome. -/
theorem performPreflightChecks_cleanup (env : PreflightEnv) (u : String)
    (r : Except String Unit) (huid : env.uidGen = .ok u) :
    (PerformPreflightChecks env).cleanupCalled =
      (allChecksPassed env || env.performCleanupOnFail) ∧
    ((PerformPreflightChecks env).result = .ok () ↔ allChecksPassed env = true) ∧
    (PerformPreflightChecks
      ⟨env.uidGen, env.kubectlRes, env.clusterAccessRes, env.helmVersionRes,
       env.k8sVersionRes, env.rbacRes, env.storageSnapshotRes, env.csiRes,
       env.dnsRes, env.volumeSnapshotRes, r, env.performCleanupOnFail⟩).result =
      (PerformPreflightChecks env).result := by
  obtain ⟨g, k, ca, hv, k8, rb, ss, cs, dn, vs, cl, fl⟩ := env
  subst huid
  cases k <;> cases ca <;> cases hv <;> cases k8 <;> cases rb <;> cases ss <;>
    cases cs <;> cases dn <;> cases vs <;>
      simp [PerformPreflightChecks, allChecksPassed, Except.isOk, Except.toBool]

/-- C4 witness: in the concrete failing environment with
cleanup-on-failure set, cleanup is invoked, the run errors, and a failing
cleanup leaves the result unchanged. -/
theorem performPreflightChecks_cleanup_witness :
    (PerformPreflightChecks sampleEnvSnapFail).cleanupCalled =
      (allChecksPassed sampleEnvSnapFail || sampleEnvSnapFail.performCleanupOnFail) ∧
    ((PerformPreflightChecks sampleEnvSnapFail).result = .ok () ↔
      allChecksPassed sampleEnvSnapFail = true) ∧
    (PerformPreflightChecks
      ⟨sampleEnvSnapFail.uidGen, sampleEnvSnapFail.kubectlRes,
       sampleEnvSnapFail.clusterAccessRes, sampleEnvSnapFail.helmVersionRes,
       sampleEnvSnapFail.k8sVersionRes, sampleEnvSnapFail.rbacRes,
       sampleEnvSnapFail.storageSnapshotRes, sampleEnvSnapFail.csiRes,
       sampleEnvSnapFail.dnsRes, sampleEnvSnapFail.volumeSnapshotRes,
       .error "cleanup failed", sampleEnvSnapFail.performCleanupOnFail⟩).result =
      (PerformPreflightChecks sampleEnvSnapFail).result :=
  performPreflightChecks_cleanup sampleEnvSnapFail "abc123" (.error "cleanup failed") rfl

/-- The CSI loop over a list of API names computes: the count of names
found, and the list (in order) of names logged as missing, provided no
lookup returns an error other than NotFound. -/
theorem csiScan_eq (lookup : String → LookupResult Unit) (l : List String)
    (h : ∀ api ∈ l, noOtherError (lookup api) = true) :
    csiScan lookup l =
      (.ok (l.countP (fun api => decide (lookup api = .found ()))),
       l.filter (fun api => decide (lookup api = .notFound))) := by
  induction l with
  | nil => simp [csiScan]
  | cons api rest ih =>
    have hapi := h api (List.mem_cons_self api rest)
    have hrest : ∀ t ∈ rest, noOtherError (lookup t) = true :=
      fun t ht => h t (List.mem_cons_of_mem api ht)
    cases hl : lookup api with
    | otherError e => simp [noOtherError, hl] at hapi
    | notFound =>
      simp [csiScan, hl, ih hrest, List.countP_cons, List.filter_cons]
    | found u =>
      cases u
      simp [csiScan, hl, ih hrest, List.countP_cons, List.filter_cons, Except.map]

/-- C5: when the preferred API-extensions version resolves and every CRD
lookup yields found-or-NotFound, `checkCSI` succeeds exactly when every
name in `CsiApis` is found, and the names logged as missing are exactly
the NotFound ones (so a NotFound never aborts the iteration). -/
theorem checkCSI_ok_iff (lookup : String → LookupResult Unit) (pref : String)
    (h : ∀ api ∈ CsiApis, noOtherError (lookup api) = true) :
    ((checkCSI (.ok pref) lookup).result = .ok () ↔
      ∀ api ∈ CsiApis, lookup api = .found ()) ∧
    (checkCSI (.ok pref) lookup).missingLogged =
      CsiApis.filter (fun api => decide (lookup api = .notFound)) := by
  have hscan := csiScan_eq lookup CsiApis h
  have hiff : CsiApis.countP (fun api => decide (lookup api = .found ())) =
      CsiApis.length ↔ ∀ api ∈ CsiApis, lookup api = .found () := by
    rw [List.countP_eq_length]
    constructor
    · intro hall api hmem
      exact of_decide_eq_true (hall api hmem)
    · intro hall api hmem
      exact decide_eq_true (hall api hmem)
  constructor
  · by_cases hcnt : CsiApis.countP (fun api => decide (lookup api = .found ())) =
        CsiApis.length
    · simp [checkCSI, hscan, hcnt]
      exact hiff.mp hcnt
    · simp only [checkCSI, hscan]
      rw [if_pos hcnt]
      exact iff_of_false (by simp) (fun hall => hcnt (hiff.mpr hall))
  · by_cases hcnt : CsiApis.countP (fun api => decide (lookup api = .found ())) =
        CsiApis.length
    · simp [checkCSI, hscan, hcnt]
    · simp only [checkCSI, hscan]
      rw [if_pos hcnt]

/-- C5 witness: under the concrete lookup in which exactly one expected
CRD is absent, the check fails and that CRD alone is logged missing. -/
theorem checkCSI_ok_iff_witness :
    ((checkCSI (.ok "v1") sampleCSILookup).result = .ok () ↔
      ∀ api ∈ CsiApis, sampleCSILookup api = .found ()) ∧
    (checkCSI (.ok "v1") sampleCSILookup).missingLogged =
      CsiApis.filter (fun api => decide (sampleCSILookup api = .notFound)) :=
  checkCSI_ok_iff sampleCSILookup "v1" (by decide)

/-- C6: with a non-empty configured snapshot class, the check fails when
the storage class is absent, fails when the snapshot-class fetch fails,
succeeds exactly when the fetched class's driver equals the storage
class's provisioner, and on a driver mismatch it returns the error naming
the offending snapshot class and the provisioner value. -/
theorem checkStorageSnapshotClass_configured (cfg : RunConfig)
    (sc : StorageClassObj) (vssc : VSSClass) (e : String)
    (fetchA : Except String VSSClass) (pref : Except String String)
    (lst : Except String (List VSSClass))
    (hsnap : cfg.snapshotClass ≠ "") :
    (checkStorageSnapshotClass cfg ⟨.notFound, fetchA, pref, lst⟩).isOk = false ∧
    (checkStorageSnapshotClass cfg ⟨.found sc, .error e, pref, lst⟩).isOk = false ∧
    ((checkStorageSnapshotClass cfg ⟨.found sc, .ok vssc, pref, lst⟩).isOk = true ↔
      vssc.driver = some sc.provisioner) ∧
    (vssc.driver ≠ some sc.provisioner →
      checkStorageSnapshotClass cfg ⟨.found sc, .ok vssc, pref, lst⟩ =
        .error ("volume snapshot class - " ++ cfg.snapshotClass ++
          " driver does not match with given StorageClass's provisioner=" ++
          sc.provisioner)) := by
  refine ⟨?_, ?_, ?_, ?_⟩
  · simp [checkStorageSnapshotClass, Except.isOk, Except.toBool]
  · simp [checkStorageSnapshotClass, hsnap, Except.isOk, Except.toBool]
  · by_cases hd : vssc.driver = some sc.provisioner
    · simp [checkStorageSnapshotClass, hsnap, hd, Except.isOk, Except.toBool]
    · simp [checkStorageSnapshotClass, hsnap, hd, Except.isOk, Except.toBool]
  · intro hd
    simp [checkStorageSnapshotClass, hsnap, hd]

/-- C6 witness: the spec's mismatch scenario — storage class `standard`
with provisioner `csi.example.com`, configured snapshot class `snapclass`
whose driver is `other.example.com` — fails with the driver-mismatch
error naming both values. -/
theorem checkStorageSnapshotClass_configured_witness :
    (checkStorageSnapshotClass ⟨"standard", "snapclass", "", "", false⟩
      ⟨.notFound, .ok ⟨"snapclass", some "other.example.com", none⟩, .ok "v1",
        .ok []⟩).isOk = false ∧
    (checkStorageSnapshotClass ⟨"standard", "snapclass", "", "", false⟩
      ⟨.found ⟨"standard", "csi.example.com"⟩, .error "not found", .ok "v1",
        .ok []⟩).isOk = false ∧
    ((checkStorageSnapshotClass ⟨"standard", "snapclass", "", "", false⟩
      ⟨.found ⟨"standard", "csi.example.com"⟩,
        .ok ⟨"snapclass", some "other.example.com", none⟩, .ok "v1",
        .ok []⟩).isOk = true ↔
      (⟨"snapclass", some "other.example.com", none⟩ : VSSClass).driver =
        some (⟨"standard", "csi.example.com"⟩ : StorageClassObj).provisioner) ∧
    ((⟨"snapclass", some "other.example.com", none⟩ : VSSClass).driver ≠
        some (⟨"standard", "csi.example.com"⟩ : StorageClassObj).provisioner →
      checkStorageSnapshotClass ⟨"standard", "snapclass", "", "", false⟩
        ⟨.found ⟨"standard", "csi.example.com"⟩,
          .ok ⟨"snapclass", some "other.example.com", none⟩, .ok "v1", .ok []⟩ =
        .error ("volume snapshot class - " ++ "snapclass" ++
          " driver does not match with given StorageClass's provisioner=" ++
          "csi.example.com")) :=
  checkStorageSnapshotClass_configured ⟨"standard", "snapclass", "", "", false⟩
    ⟨"standard", "csi.example.com"⟩ ⟨"snapclass", some "other.example.com", none⟩
    "not found" (.ok ⟨"snapclass", some "other.example.com", none⟩) (.ok "v1")
    (.ok []) (by decide)

/-- C7: for every run configuration with an empty storage class, and for
every run configuration with a non-empty image-pull-secret and empty
local-registry, the run command handler terminates fatally — whatever the
earlier pipeline steps did — so `PerformPreflightChecks` is never reached
and no check executes. -/
theorem runCmdRunE_fatal_on_bad_config (cfg cfg2 : RunConfig)
    (a b c d e a2 b2 c2 d2 e2 : Except String Unit)
    (hsc : cfg.storageClass = "")
    (hips : cfg2.imagePullSecret ≠ "") (hlr : cfg2.localRegistry = "") :
    (runCmdRunE ⟨cfg, a, b, c, d, e⟩).isFatal = true ∧
    (runCmdRunE ⟨cfg2, a2, b2, c2, d2, e2⟩).isFatal = true := by
  constructor
  · cases a <;> cases b <;> cases c <;> cases d <;> cases e <;>
      simp [runCmdRunE, RunEResult.isFatal, hsc]
  · cases a2 <;> cases b2 <;> cases c2 <;> cases d2 <;> cases e2 <;>
      by_cases hsc2 : cfg2.storageClass = "" <;>
        simp [runCmdRunE, RunEResult.isFatal, hsc2, hips, hlr]

/-- C7 witness: a configuration with empty storage class, and one with a
pull secret but no local registry, both terminate fatally before the
checks. -/
theorem runCmdRunE_fatal_on_bad_config_witness :
    (runCmdRunE ⟨⟨"", "", "", "", false⟩, .ok (), .ok (), .ok (), .ok (),
      .ok ()⟩).isFatal = true ∧
    (runCmdRunE ⟨⟨"standard", "", "", "secret", false⟩, .ok (), .ok (), .ok (),
      .ok (), .ok ()⟩).isFatal = true :=
  runCmdRunE_fatal_on_bad_config ⟨"", "", "", "", false⟩
    ⟨"standard", "", "", "secret", false⟩
    (.ok ()) (.ok ()) (.ok ()) (.ok ()) (.ok ())
    (.ok ()) (.ok ()) (.ok ()) (.ok ()) (.ok ())
    rfl (by decide) rfl

/-- The suffix loop starting at call index `i` for `n` characters succeeds
exactly when the source's calls `i, i+1, ..., i+n-1` all succeed. -/
theorem createSuffixAux_ok_iff (randInt : Nat → Except String Nat) (n : Nat) :
    ∀ i, (createSuffixAux randInt i n).isOk = true ↔
      ∀ k, k < n → (randInt (i + k)).isOk = true := by
  induction n with
  | zero =>
    intro i
    simp [createSuffixAux, Except.isOk, Except.toBool]
  | succ m ih =>
    intro i
    cases hr : randInt i with
    | error e =>
      simp only [createSuffixAux, hr]
      constructor
      · intro hk
        simp [Except.isOk, Except.toBool] at hk
      · intro hall
        have h0 := hall 0 (Nat.succ_pos m)
        rw [Nat.add_zero, hr] at h0
        simp [Except.isOk, Except.toBool] at h0
    | ok idx =>
      cases ha : createSuffixAux randInt (i + 1) m with
      | error e =>
        simp only [createSuffixAux, hr, ha]
        constructor
        · intro hk
          simp [Except.isOk, Except.toBool] at hk
        · intro hall
          have h2 := (ih (i + 1)).mpr ?_
          · rw [ha] at h2
            simp [Except.isOk, Except.toBool] at h2
          · intro k hk
            have := hall (k + 1) (Nat.succ_lt_succ hk)
            rwa [show i + (k + 1) = i + 1 + k by omega] at this
      | ok rest =>
        simp only [createSuffixAux, hr, ha]
        constructor
        · intro _ k hk
          cases k with
          | zero => rw [Nat.add_zero, hr]; rfl
          | succ j =>
            have h2 := (ih (i + 1)).mp (by rw [ha]; rfl)
            have := h2 j (Nat.lt_of_succ_lt_succ hk)
            rwa [show i + 1 + j = i + (j + 1) by omega] at this
        · intro _
          rfl

/-- When the suffix loop starting at index `i` for `n` characters
succeeds, it produces exactly `n` characters, each belonging to the
alphabet (using that the random source's values stay below the alphabet
length). -/
theorem createSuffixAux_chars (randInt : Nat → Except String Nat)
    (hrange : ∀ i v, randInt i = .ok v → v < letterBytes.toList.length) :
    ∀ n i cs, createSuffixAux randInt i n = .ok cs →
      cs.length = n ∧ ∀ c ∈ cs, c ∈ letterBytes.toList := by
  intro n
  induction n with
  | zero =>
    intro i cs h
    simp only [createSuffixAux] at h
    cases h
    exact ⟨rfl, by intro c hc; cases hc⟩
  | succ m ih =>
    intro i cs h
    simp only [createSuffixAux] at h
    cases hr : randInt i with
    | error e => rw [hr] at h; cases h
    | ok idx =>
      rw [hr] at h
      cases ha : createSuffixAux randInt (i + 1) m with
      | error e => rw [ha] at h; cases h
      | ok rest =>
        rw [ha] at h
        cases h
        have hlen := hrange i idx hr
        obtain ⟨hrl, hrm⟩ := ih (i + 1) rest ha
        refine ⟨by simp [hrl], ?_⟩
        intro c hc
        rcases List.mem_cons.mp hc with hc | hc
        · subst hc
          rw [List.getD_eq_getElem letterBytes.toList 'a' hlen]
          exact List.getElem_mem hlen
        · exact hrm c hc

/-- C8: every successful `CreateResourceNameSuffix` call returns a string
of length exactly 6, each character in the fixed alphabet `letterBytes`
(character `i` drawn by the `i`-th call of the secure random source), and
the call succeeds exactly when the first six calls of the random source
all succeed. -/
theorem createResourceNameSuffix_spec (randInt : Nat → Except String Nat)
    (s : String)
    (hrange : ∀ i v, randInt i = .ok v → v < letterBytes.toList.length) :
    ((CreateResourceNameSuffix randInt).isOk = true ↔
      ∀ i, i < 6 → (randInt i).isOk = true) ∧
    (CreateResourceNameSuffix randInt = .ok s →
      s.length = 6 ∧ ∀ c ∈ s.toList, c ∈ letterBytes.toList) := by
  constructor
  · rw [show (CreateResourceNameSuffix randInt).isOk =
        (createSuffixAux randInt 0 6).isOk by
      unfold CreateResourceNameSuffix
      cases createSuffixAux randInt 0 6 <;> rfl]
    have h := createSuffixAux_ok_iff randInt 6 0
    simpa using h
  · intro hok
    unfold CreateResourceNameSuffix at hok
    cases ha : createSuffixAux randInt 0 6 with
    | error e => rw [ha] at hok; cases hok
    | ok cs =>
      rw [ha] at hok
      cases hok
      obtain ⟨hlen, hmem⟩ := createSuffixAux_chars randInt hrange 6 0 cs ha
      exact ⟨hlen, hmem⟩

/-- C8 witness: with the random source constantly returning 0, the suffix
is a 6-character string over the alphabet, and the success condition
holds. -/
theorem createResourceNameSuffix_spec_witness :
    ((CreateResourceNameSuffix (fun _ => .ok 0)).isOk = true ↔
      ∀ i, i < 6 → ((fun (_ : Nat) => (.ok 0 : Except String Nat)) i).isOk = true) ∧
    (CreateResourceNameSuffix (fun _ => .ok 0) = .ok "aaaaaa" →
      ("aaaaaa" : String).length = 6 ∧
      ∀ c ∈ ("aaaaaa" : String).toList, c ∈ letterBytes.toList) :=
  createResourceNameSuffix_spec (fun _ => .ok 0) "aaaaaa"
    (fun i v h => by cases h; decide)

/-- C9: `checkDNSResolution` attempts the pod deletion exactly when its
result is success, which happens exactly when pod creation, the readiness
wait, the pod re-fetch, and the in-pod exec all succeeded; and a failing
deletion changes nothing observable — the check still returns nil. -/
theorem checkDNSResolution_delete_frame (cmd : List String) (env : DNSEnv) :
    ((checkDNSResolution cmd env).deleteAttempted = true ↔
      ((checkDNSResolution cmd env).result).isOk = true) ∧
    ((checkDNSResolution cmd env).deleteAttempted = true ↔
      (env.createPodRes.isOk && env.waitReadyRes.isOk && env.getPodRes.isOk &&
        env.execRes.isOk) = true) ∧
    checkDNSResolution cmd ⟨env.createPodRes, env.waitReadyRes, env.getPodRes,
      env.execRes, .error "delete failed"⟩ = checkDNSResolution cmd env := by
  obtain ⟨cr, wr, gr, xr, dr⟩ := env
  cases cr <;> cases wr <;> cases gr <;> cases xr <;>
    simp [checkDNSResolution, Except.isOk, Except.toBool]

/-- C10 witness: with the single malformed group-version string "a/b/c"
and the RBAC group/version entirely absent, the check succeeds. -/
theorem checkKubernetesRBAC_parse_error_ok_witness :
    checkKubernetesRBAC "rbac.authorization.k8s.io" "v1"
      (.ok (["apps/v1"] ++ "a/b/c" :: [])) = .ok () :=
  checkKubernetesRBAC_parse_error_ok "rbac.authorization.k8s.io" "v1" "a/b/c"
    ["apps/v1"] [] (by decide) (by decide)

end Preflight
